import Mathlib

/-!
Verification of the analysis_platform repository core:
a shallow embedding in Lean 4 of the signal-cleaning pipeline
(src/DataCleaner.py), the timestamp-synchronization and window-extraction
layer (src/analysis_utils.py) and the statistics layer
(src/analysis_methods.py), together with theorems settling the spec claims.

Modelling conventions:
  * float64 values are embedded as rationals (ℚ); IEEE NaN is embedded as
    `none` of `Option ℚ`.  All float comparisons with NaN are false, which
    the embeddings reproduce branch by branch.
  * a pandas DataFrame holding one metric is embedded as a list of rows
    `(timestamp, value)`; column-level operations become list traversals
    that preserve row order exactly as pandas does.
  * `x.std()` (a square root, hence irrational) is embedded by its square,
    the ddof=1 sample variance, which is rational; every predicate the
    source applies to a standard deviation (`isnan`, `> 0`, a `< threshold`
    comparison after dividing by it) is transported through the square.
-/

namespace AnalysisPlatform

/-- A data row: (timestamp, metric value); the value is `none` for NaN. -/
abbrev Row : Type := ℚ × Option ℚ

/-! ### Rational list helpers shared by the embeddings -/

/-- Insert into a sorted rational list (ascending). -/
def insertQ (x : ℚ) : List ℚ → List ℚ
  | [] => [x]
  | y :: ys => if x ≤ y then x :: y :: ys else y :: insertQ x ys

/-- Sort a rational list ascending (numpy/pandas sort on the values). -/
def sortQ (l : List ℚ) : List ℚ := l.foldr insertQ []

/-- pandas `Series.median` on a NaN-free list: NaN (`none`) when empty,
middle element for odd length, mean of the two middle elements otherwise. -/
def pandasMedian (l : List ℚ) : Option ℚ :=
  if l.length = 0 then none
  else if l.length % 2 = 1 then some ((sortQ l).getD (l.length / 2) 0)
  else some (((sortQ l).getD (l.length / 2 - 1) 0 + (sortQ l).getD (l.length / 2) 0) / 2)

/-- `np.median` over a column that may hold NaN: numpy does not skip NaN,
so any NaN entry (or an empty column) makes the result NaN. -/
def npMedianOfOpts (l : List (Option ℚ)) : Option ℚ :=
  if l.any Option.isNone then none else pandasMedian (l.filterMap id)

/-- pandas `Series.min` on a NaN-free list: NaN (`none`) when empty. -/
def pandasMinQ : List ℚ → Option ℚ
  | [] => none
  | x :: xs => some (match pandasMinQ xs with | none => x | some m => min x m)

/-- pandas `Series.max` on a NaN-free list: NaN (`none`) when empty. -/
def pandasMaxQ : List ℚ → Option ℚ
  | [] => none
  | x :: xs => some (match pandasMaxQ xs with | none => x | some m => max x m)

/-- Mean of a rational list (division by zero yields 0 for the empty list,
which no reachable call site exercises). -/
def listMean (l : List ℚ) : ℚ := l.sum / (l.length : ℚ)

/-- ddof=1 sample variance, the square of pandas `Series.std`:
NaN (`none`) when fewer than two samples, matching `std` being NaN there. -/
def sampleVar (l : List ℚ) : Option ℚ :=
  if l.length ≤ 1 then none
  else some ((l.map (fun x => (x - listMean l) ^ 2)).sum / ((l.length : ℚ) - 1))

namespace DataCleaner

/-! ### src/DataCleaner.py — BiometricDataCleaner -/

/-- Physiological validation rules (`_get_thresholds` values). -/
structure Thresholds where
  min : Option ℚ
  max : Option ℚ
  max_change : Option ℚ
deriving DecidableEq

/-- `BiometricDataCleaner._get_thresholds`: the static ranges table with a
default fallback for unknown metric types. -/
def get_thresholds (metric_type : String) : Thresholds :=
  if metric_type = "HR" then ⟨some 30, some 220, some 30⟩
  else if metric_type = "EDA" then ⟨some 0, some 100, some 5⟩
  else if metric_type = "TEMP" then ⟨some 30, some 42, some 2⟩
  else if metric_type = "PI" then ⟨some 0, none, none⟩
  else if metric_type = "PR" then ⟨some 0, none, none⟩
  else if metric_type = "PG" then ⟨some 0, none, none⟩
  else ⟨none, none, none⟩

/-- Stage 1, `_remove_invalid_values`: drop NaN/inf rows (both embedded as
`none`), then drop negative values for the enumerated metric types. -/
def remove_invalid_values (metric_type : String) (df : List Row) : List Row :=
  let df1 := df.filter (fun r => r.2.isSome)
  if ["EDA", "PI", "PR", "PG"].contains metric_type then
    df1.filter (fun r => decide (0 ≤ r.2.getD 0))
  else df1

/-- Stage 2, `_remove_physiological_outliers`: keep `min <= v` when a lower
bound exists, then `v <= max` when an upper bound exists.  A pandas
comparison with NaN is false, so NaN rows are dropped by an active bound. -/
def remove_physiological_outliers (th : Thresholds) (df : List Row) : List Row :=
  let df1 := match th.min with
    | some mn => df.filter (fun r => match r.2 with
        | some v => decide (mn ≤ v)
        | none => false)
    | none => df
  match th.max with
  | some mx => df1.filter (fun r => match r.2 with
      | some v => decide (v ≤ mx)
      | none => false)
  | none => df1

/-- `df[metric_col].median()` inside stage 3 (pandas skips NaN). -/
def stageMedian (df : List Row) : Option ℚ :=
  pandasMedian ((df.map Prod.snd).filterMap id)

/-- `np.median(np.abs(df[metric_col] - median))` inside stage 3: the
subtraction propagates NaN (also when the median itself is NaN), and
`np.median` is NaN as soon as one entry is NaN. -/
def stageMAD (df : List Row) : Option ℚ :=
  npMedianOfOpts ((df.map Prod.snd).map (fun v? =>
    match stageMedian df, v? with
    | some m, some v => some |v - m|
    | _, _ => none))

/-- `df[metric_col].std()` inside stage 3, embedded by its square (the
ddof=1 sample variance); `none` encodes the NaN of fewer than two samples. -/
def stageVar (df : List Row) : Option ℚ :=
  sampleVar ((df.map Prod.snd).filterMap id)

/-- Stage 3, `_remove_statistical_outliers` (threshold is 3.5 at the only
call site).  MAD branch: keep `|0.6745 * (v - median) / MAD| < threshold`.
Fallback branch (MAD == 0, std > 0): the source keeps
`|v - median| / std < threshold`; with `std = √var` and `0 ≤ threshold`
this is exactly `(v - median)^2 < threshold^2 * var`, the form used here.
Comparisons against a NaN z-score are false, so NaN rows are dropped by
either active filter; a NaN MAD (some NaN value present, or an empty frame)
makes every z-score NaN and drops every row. -/
def remove_statistical_outliers (threshold : ℚ) (df : List Row) : List Row :=
  let m? := stageMedian df
  let mad? := stageMAD df
  if mad? = some 0 then
    match m?, stageVar df with
    | some m, some var =>
        if 0 < var then
          df.filter (fun r => match r.2 with
            | some v => decide ((v - m) ^ 2 < threshold ^ 2 * var)
            | none => false)
        else df
    | _, _ => df
  else
    match m?, mad? with
    | some m, some mad =>
        df.filter (fun r => match r.2 with
          | some v => decide (|6745 / 10000 * (v - m) / mad| < threshold)
          | none => false)
    | _, _ => df.filter (fun _ => false)

/-- Insertion step for the timestamp sort of stage 4. -/
def insertByTs (x : Row) : List Row → List Row
  | [] => [x]
  | y :: ys => if x.1 ≤ y.1 then x :: y :: ys else y :: insertByTs x ys

/-- `df.sort_values(timestamp_col)` (stable for ties; the source sort is
numpy quicksort whose tie order is implementation defined). -/
def sortByTs (l : List Row) : List Row := l.foldr insertByTs []

/-- Mask entry of stage 4 for a consecutive (sorted) pair: the later row is
kept when its rate of change is NaN (either value NaN, or Δt replaced by
NaN because it is zero) or at most `max_change`. -/
def keepPair (mc : ℚ) (prev cur : Row) : Bool :=
  match prev.2, cur.2 with
  | some a, some b =>
      if cur.1 - prev.1 = 0 then true
      else decide (|b - a| / (cur.1 - prev.1) ≤ mc)
  | _, _ => true

/-- Apply the stage-4 mask: the diff is taken against the previous row of
the sorted frame (not the previously retained row), as in the source. -/
def chainFilter (mc : ℚ) : Row → List Row → List Row
  | _, [] => []
  | prev, cur :: rest =>
      (if keepPair mc prev cur then [cur] else []) ++ chainFilter mc cur rest

/-- Stage 4, `_remove_sudden_changes`: sort by timestamp, then drop rows
whose rate of change against the previous row exceeds `max_change`; the
first row has a NaN diff and is always kept. -/
def remove_sudden_changes (mc : ℚ) (df : List Row) : List Row :=
  match sortByTs df with
  | [] => []
  | first :: rest => first :: chainFilter mc first rest

/-- Length of the leading run of NaN entries. -/
def noneRunLen : List (Option ℚ) → ℕ
  | none :: rest => noneRunLen rest + 1
  | _ => 0

/-- First non-NaN value of the column, if any. -/
def firstVal : List (Option ℚ) → Option ℚ
  | [] => none
  | some b :: _ => some b
  | none :: rest => firstVal rest

/-- The fill pandas `interpolate(method=linear, limit=10)` assigns to the
j-th entry (1-based) of a NaN run of length `g` that follows the valid
value `a`: within the forward limit of 10 it is the linear interpolant
towards the next valid value `b` (the method ignores the index and treats
samples as equally spaced), or `a` itself for a trailing run (pandas does
not extrapolate: it propagates the last valid value); beyond the limit the
entry stays NaN. -/
def interpFill (a : ℚ) (next : Option ℚ) (g : ℕ) (j : ℕ) : Option ℚ :=
  if j ≤ 10 then
    match next with
    | some b => some (a + (j : ℚ) * (b - a) / ((g : ℚ) + 1))
    | none => some a
  else none

/-- Walk of the interpolation after a first valid value `a` has been seen:
valid entries pass through, each maximal NaN run is rewritten by
`interpFill` from its bounding valid values. -/
def interpAux (a : ℚ) (l : List (Option ℚ)) : List (Option ℚ) :=
  match l with
  | [] => []
  | some b :: rest => some b :: interpAux b rest
  | none :: rest =>
      let k := noneRunLen rest
      ((List.range (k + 1)).map (fun j => interpFill a (firstVal rest) (k + 1) (j + 1)))
        ++ interpAux a (rest.drop k)
  termination_by l.length
  decreasing_by
  · simp
  · simp only [List.length_cons, List.length_drop]
    omega

/-- pandas `Series.interpolate(method=linear, limit=10)`: NaN entries
before the first valid value are preserved (forward limit direction),
every later NaN run is filled by `interpAux`. -/
def interpLinear10 : List (Option ℚ) → List (Option ℚ)
  | [] => []
  | none :: rest => none :: interpLinear10 rest
  | some a :: rest => some a :: interpAux a rest

/-- Forward-fill step with the 5-sample limit: `a` is the previous valid
value, `c` the number of NaN entries already crossed in the current run. -/
def ffillAux (a : ℚ) (c : ℕ) : List (Option ℚ) → List (Option ℚ)
  | [] => []
  | some b :: rest => some b :: ffillAux b 0 rest
  | none :: rest => (if c < 5 then some a else none) :: ffillAux a (c + 1) rest

/-- pandas `fillna(method=ffill, limit=5)`: the first five entries of a
NaN run following a valid value are filled with that value; a run with no
preceding valid value is untouched. -/
def ffill5 : List (Option ℚ) → List (Option ℚ)
  | [] => []
  | some b :: rest => some b :: ffillAux b 0 rest
  | none :: rest => none :: ffill5 rest

/-- pandas `fillna(method=bfill, limit=5)`: the last five entries of a
NaN run preceding a valid value are filled with that value — the mirror
image of the limited forward fill. -/
def bfill5 (l : List (Option ℚ)) : List (Option ℚ) :=
  (ffill5 l.reverse).reverse

/-- Stage 5, `_interpolate_missing`: when the column holds at least one
NaN, interpolate with limit 10, then backward- and forward-fill with limit
5, then drop the rows still NaN; a NaN-free column is returned untouched. -/
def interpolate_missing (df : List Row) : List Row :=
  let vals := df.map Prod.snd
  if vals.countP Option.isNone = 0 then df
  else
    let v3 := ffill5 (bfill5 (interpLinear10 vals))
    ((df.map Prod.fst).zip v3).filterMap (fun p => p.2.map (fun q => (p.1, some q)))

/-- One output sample of `scipy.signal.medfilt(kernel_size=5)`: the median
of the centered window of five samples around position `i`, read from the
zero-padded column (scipy pads with zeros on both sides). -/
def medfiltAt (l : List ℚ) (i : ℕ) : ℚ :=
  (sortQ ((([0, 0] ++ l ++ [0, 0]).drop i).take 5)).getD 2 0

/-- `scipy.signal.medfilt(values, kernel_size=5)`. -/
def medfiltList (l : List ℚ) : List ℚ :=
  (List.range l.length).map (medfiltAt l)

/-- Rewrite the metric column with the median filter output. -/
def medfiltTransform (df : List Row) : List Row :=
  (df.zip (medfiltList (df.map (fun r => r.2.getD 0)))).map (fun p => (p.1.1, some p.2))

/-- Stage 6, `_apply_smoothing` (window fixed at 5): the filter runs only
when `len(df) > window`.  In the pipeline this stage always receives a
NaN-free column (stage 5 — or the dropna branch when interpolation is
off — precedes it); scipy median filtering of NaN input has unspecified
comparison behaviour, so that unreachable case is modelled as the
identity. -/
def apply_smoothing (df : List Row) : List Row :=
  if 5 < df.length then
    if df.all (fun r => r.2.isSome) then medfiltTransform df else df
  else df

/-- The six stage flags of `clean` (absent keys take these defaults via
`stages.get`, so a flag structure models the dictionary faithfully). -/
structure Stages where
  remove_invalid : Bool
  remove_physiological_outliers : Bool
  remove_statistical_outliers : Bool
  remove_sudden_changes : Bool
  interpolate : Bool
  smooth : Bool
deriving DecidableEq

/-- The default configuration substituted for `stages=None`. -/
def defaultStages : Stages := ⟨true, true, false, true, true, false⟩

/-- `BiometricDataCleaner.clean`: the six-stage pipeline in fixed order.
Stage 2 runs only when a bound exists, stage 4 only when `max_change`
exists; with interpolation off, NaN rows are dropped instead. -/
def clean (metric_type : String) (stages : Stages) (data : List Row) : List Row :=
  let thresholds := get_thresholds metric_type
  let df1 := if stages.remove_invalid then remove_invalid_values metric_type data else data
  let df2 := if stages.remove_physiological_outliers
                && (thresholds.min.isSome || thresholds.max.isSome) then
               remove_physiological_outliers thresholds df1 else df1
  let df3 := if stages.remove_statistical_outliers then
               remove_statistical_outliers (7 / 2) df2 else df2
  let df4 := if stages.remove_sudden_changes then
               match thresholds.max_change with
               | some mc => remove_sudden_changes mc df3
               | none => df3
             else df3
  let df5 := if stages.interpolate then interpolate_missing df4
             else df4.filter (fun r => r.2.isSome)
  if stages.smooth then apply_smoothing df5 else df5

end DataCleaner

namespace AnalysisUtils

/-! ### src/analysis_utils.py — timestamp normalization, clock offset and
window extraction -/

/-- One row of an event log: timestamp, event name (NaN possible) and the
optional condition label (NaN possible). -/
structure EventRow where
  unix_timestamp : ℚ
  event_marker : Option String
  condition : Option String
deriving DecidableEq

/-- An event-marker DataFrame: its rows in frame order, plus whether the
optional `condition` column is present at all. -/
structure EventLog where
  rows : List EventRow
  hasConditionCol : Bool
deriving DecidableEq

/-- One row of a sensor stream (`LocalTimestamp` plus the metric value;
further columns play no role in the extraction logic). -/
structure SensorRow where
  LocalTimestamp : ℚ
  value : ℚ
deriving DecidableEq

/-- A sensor row after the `AdjustedTimestamp` column has been added. -/
structure AdjRow where
  LocalTimestamp : ℚ
  value : ℚ
  AdjustedTimestamp : ℚ
deriving DecidableEq

/-- `window_config[timeWindowType]`: the source compares against the
string `full` and treats every other value as the custom window. -/
inductive WindowType
  | full
  | custom
deriving DecidableEq

/-- The window specification consumed by `extract_window_data`
(`conditionMarker` empty means no condition restriction). -/
structure WindowConfig where
  eventMarker : String
  conditionMarker : String
  timeWindowType : WindowType
  customStart : ℚ
  customEnd : ℚ
deriving DecidableEq

/-- The legacy `timestamp` column of an event-marker table.  The source
sniffs the first non-null cell: a numeric cell selects the numeric branch,
a string cell the ISO branch.  String cells are abstracted by the unix
value standard date-time parsing yields for them (`none` = parse failure);
the parser itself is the Python standard library, not repository code. -/
inductive TsColumn
  | numericCol (vals : List (Option ℚ))
  | isoCol (cells : List (Option (Option ℚ)))
deriving DecidableEq

/-- An event-marker table as `prepare_event_markers_timestamps` sees it:
an optional NEW-format `timestamp_unix` column and an optional legacy
`timestamp` column (`none` = column absent). -/
structure EventTable where
  timestamp_unix : Option (List (Option ℚ))
  timestamp : Option TsColumn
deriving DecidableEq

/-- `prepare_event_markers_timestamps`, returning the `unix_timestamp`
column of the accepted rows (or the raised error).
NEW branch: copy `timestamp_unix`, drop NaN rows, drop rows `<= 0`.
OLD numeric branch: copy the `timestamp` column verbatim — the source
performs no NaN or positivity filtering there.
OLD ISO branch: convert each cell (NaN and parse failures become null),
then drop the null rows — with no positivity filtering either. -/
def prepare_event_markers_timestamps (t : EventTable) :
    Except String (List (Option ℚ)) :=
  match t.timestamp_unix with
  | some col =>
      Except.ok ((col.filter Option.isSome).filter (fun v? =>
        match v? with
        | some v => decide (0 < v)
        | none => false))
  | none =>
    match t.timestamp with
    | none => Except.error "Event markers file missing timestamp column"
    | some (TsColumn.numericCol vals) =>
        match vals.filterMap id with
        | [] => Except.error "No valid timestamps found in event markers file"
        | _ :: _ => Except.ok vals
    | some (TsColumn.isoCol cells) =>
        match (cells.filterMap id).head? with
        | none => Except.error "No valid timestamps found in event markers file"
        | some _ =>
            Except.ok (((cells.map (fun c => c.bind id)).filterMap id).map some)

/-- `find_timestamp_offset`: difference of the two column minima.  pandas
`min` skips NaN and is itself NaN on an empty (or all-NaN) column, in
which case the difference is NaN (`none`). -/
def find_timestamp_offset (event_unix sensor_local : List (Option ℚ)) : Option ℚ :=
  match pandasMinQ (event_unix.filterMap id), pandasMinQ (sensor_local.filterMap id) with
  | some a, some b => some (a - b)
  | _, _ => none

/-- Add the `AdjustedTimestamp` column (`LocalTimestamp + offset`). -/
def adjustRows (offset : ℚ) (sensors : List SensorRow) : List AdjRow :=
  sensors.map (fun s => ⟨s.LocalTimestamp, s.value, s.LocalTimestamp + offset⟩)

/-- The next-marker predicate of the full window: `event_marker` non-null
and different from the empty string. -/
def validMarker (r : EventRow) : Bool :=
  r.event_marker.isSome && decide (r.event_marker ≠ some "")

/-- The `marker_rows` selection: rows whose `event_marker` equals the
requested marker (a pandas comparison with NaN is false), restricted to
the requested condition when one is given and the column exists. -/
def markerRows (log : EventLog) (cfg : WindowConfig) : List EventRow :=
  let mr := log.rows.filter (fun r => decide (r.event_marker = some cfg.eventMarker))
  if cfg.conditionMarker ≠ "" then
    if log.hasConditionCol then
      mr.filter (fun r => decide (r.condition = some cfg.conditionMarker))
    else mr
  else mr

/-- `event_markers_df[unix_timestamp].max()`.  pandas max of an empty
frame is NaN; the fallback is reached only while iterating a marker row,
so the log is nonempty there and the junk value for `[]` is unreachable. -/
def endOfLog (log : EventLog) : ℚ :=
  match pandasMaxQ (log.rows.map EventRow.unix_timestamp) with
  | some m => m
  | none => 0

/-- The end bound of a full window starting at `t0`: the source filters the
log for rows with a strictly later timestamp and a valid marker and takes
`iloc[0]` — the first such row in frame order — falling back to the log
maximum when none exists. -/
def endTimeFull (log : EventLog) (t0 : ℚ) : ℚ :=
  match log.rows.filter (fun r => decide (t0 < r.unix_timestamp) && validMarker r) with
  | n :: _ => n.unix_timestamp
  | [] => endOfLog log

/-- The same bound as the spec words it: the timestamp of the *next*
valid-marker row after `t0`, i.e. the minimum among the strictly later
valid-marker timestamps, falling back to the end of the log.  Stated
separately from `endTimeFull` so the refinement between source and spec
can be proved. -/
def specNextTime (log : EventLog) (t0 : ℚ) : ℚ :=
  match pandasMinQ (((log.rows.filter (fun r =>
      decide (t0 < r.unix_timestamp) && validMarker r)).map EventRow.unix_timestamp)) with
  | some m => m
  | none => endOfLog log

/-- `extract_window_data`.  The source appends only nonempty per-occurrence
windows and concatenates them, which equals the flat concatenation below;
the two empty-DataFrame early returns (no marker row, no window data)
coincide with the empty flat concatenation. -/
def extract_window_data (sensors : List SensorRow) (log : EventLog)
    (offset : ℚ) (cfg : WindowConfig) : List AdjRow :=
  let adj := adjustRows offset sensors
  if cfg.eventMarker = "all" then adj
  else
    (markerRows log cfg).flatMap (fun mrow =>
      match cfg.timeWindowType with
      | WindowType.full =>
          adj.filter (fun s =>
            decide (mrow.unix_timestamp ≤ s.AdjustedTimestamp)
              && decide (s.AdjustedTimestamp < endTimeFull log mrow.unix_timestamp))
      | WindowType.custom =>
          adj.filter (fun s =>
            decide (mrow.unix_timestamp + cfg.customStart ≤ s.AdjustedTimestamp)
              && decide (s.AdjustedTimestamp ≤ mrow.unix_timestamp + cfg.customEnd)))

end AnalysisUtils

namespace AnalysisMethods

/-! ### src/analysis_methods.py — statistics -/

/-- The four analysis methods. -/
inductive AMethod
  | raw
  | mean
  | moving_average
  | rmssd
deriving DecidableEq

/-- The float stored under the `smoothness` key, kept symbolic because the
standard deviation is a square root: `nanSm` is IEEE NaN (the uncoerced
`values.std()` of a single sample divided by a nonzero mean), `ratio v m`
is `√v / m` for the sample variance `v` and mean `m`, and `zeroSm` is the
literal `0` of the zero-mean branch. -/
inductive SmoothVal
  | nanSm
  | ratio (varNum : ℚ) (mean : ℚ)
  | zeroSm
deriving DecidableEq

/-- The dictionary `calculate_statistics` returns.  `stdSq` is the square
of the reported standard deviation (already 0-coerced as in the source);
`rmssdSq` is the square of the optional RMSSD scalar; `none` in the two
optional fields means the key is absent. -/
structure StatsRecord where
  mean : ℚ
  stdSq : ℚ
  min : ℚ
  max : ℚ
  count : ℕ
  rmssdSq : Option ℚ
  smoothness : Option SmoothVal
deriving DecidableEq

/-- `calculate_statistics`.  `column` is the metric column (NaN as
`none`), `attrsRmssdSq` models `data.attrs[rmssd]` (squared; `none` =
attribute absent).  The empty branch returns the five zeros with no
method-specific keys.  Mean/min/max of a nonempty NaN-free rational list
are never NaN, so their isnan coercions are vacuous here; the std coercion
is the `none => 0` arm; `smoothness` divides the *uncoerced* std by the
mean, so a NaN std (single sample) makes it NaN. -/
def calculate_statistics (column : List (Option ℚ)) (method : AMethod)
    (attrsRmssdSq : Option ℚ) : StatsRecord :=
  let values := column.filterMap id
  if values.length = 0 then
    ⟨0, 0, 0, 0, 0, none, none⟩
  else
    let mean_val := listMean values
    let std_sq := match sampleVar values with
      | some v => v
      | none => 0
    let min_val := (pandasMinQ values).getD 0
    let max_val := (pandasMaxQ values).getD 0
    let rm := if method = AMethod.rmssd then attrsRmssdSq else none
    let sm := if method = AMethod.moving_average then
        some (if mean_val ≠ 0 then
                match sampleVar values with
                | none => SmoothVal.nanSm
                | some v => SmoothVal.ratio v mean_val
              else SmoothVal.zeroSm)
      else none
    ⟨mean_val, std_sq, min_val, max_val, values.length, rm, sm⟩

end AnalysisMethods

namespace Examples

/-! ### Concrete inputs used by the claim theorems and witnesses -/

open DataCleaner AnalysisUtils AnalysisMethods

/-- A series with an interior run of exactly 10 NaN between two valid
samples (timestamps 0..11). -/
def gap10 : List Row :=
  [(0, some 70), (1, none), (2, none), (3, none), (4, none), (5, none),
   (6, none), (7, none), (8, none), (9, none), (10, none), (11, some 81)]

/-- A series with an interior run of exactly 11 NaN between two valid
samples (timestamps 0..12). -/
def gap11 : List Row :=
  [(0, some 70), (1, none), (2, none), (3, none), (4, none), (5, none),
   (6, none), (7, none), (8, none), (9, none), (10, none), (11, none), (12, some 82)]

/-- The statistical-outlier example series of the spec. -/
def exDf72 : List Row :=
  [(0, some 70), (1, some 72), (2, some 71), (3, some 73),
   (4, some 150), (5, some 72), (6, some 71)]

/-- A constant three-sample series (MAD and variance both zero). -/
def constDf : List Row := [(0, some 5), (1, some 5), (2, some 5)]

/-- A five-row series with a spike the median filter would remove. -/
def fiveRowSpike : List Row :=
  [(0, some 0), (1, some 0), (2, some 100), (3, some 0), (4, some 0)]

/-- A six-row series with a spike. -/
def sixRowSpike : List Row :=
  [(0, some 7), (1, some 7), (2, some 100), (3, some 7), (4, some 7), (5, some 7)]

/-- An OLD-format table whose numeric legacy `timestamp` column carries a
positive, a negative and a NaN entry. -/
def numericLegacyTable : EventTable :=
  ⟨none, some (TsColumn.numericCol [some 100, some (-5), none])⟩

/-- A two-marker event log, sorted by timestamp. -/
def exLog : EventLog :=
  ⟨[⟨10, some "A", none⟩, ⟨20, some "B", none⟩], false⟩

/-- A full-window specification for marker A. -/
def exCfg : WindowConfig := ⟨"A", "", WindowType.full, 0, 0⟩

/-- Three sensor rows around the example log. -/
def exSensors : List SensorRow := [⟨9, 1⟩, ⟨12, 2⟩, ⟨25, 3⟩]

/-- A single-marker log whose only row carries the maximum timestamp. -/
def lastLog : EventLog := ⟨[⟨10, some "A", none⟩], false⟩

/-- A sensor row that would fall after the last marker. -/
def lastSensors : List SensorRow := [⟨11, 1⟩]

end Examples

/-! ## Helper lemmas -/

open DataCleaner AnalysisUtils AnalysisMethods Examples

theorem pandasMinQ_eq_none {l : List ℚ} (h : pandasMinQ l = none) : l = [] := by
  cases l with
  | nil => rfl
  | cons x xs => rw [pandasMinQ] at h; exact absurd h (by simp)

theorem pandasMinQ_mem {l : List ℚ} {v : ℚ} (h : pandasMinQ l = some v) : v ∈ l := by
  induction l generalizing v with
  | nil => simp [pandasMinQ] at h
  | cons x xs ih =>
    rw [pandasMinQ] at h
    cases h2 : pandasMinQ xs with
    | none =>
      rw [h2] at h
      have hv : x = v := by simpa using h
      rw [← hv]
      exact List.mem_cons_self x xs
    | some m =>
      rw [h2] at h
      have hmin : min x m = v := by simpa using h
      rcases le_total x m with hle | hle
      · have hv : v = x := by rw [← hmin, min_eq_left hle]
        rw [hv]; exact List.mem_cons_self x xs
      · have hv : v = m := by rw [← hmin, min_eq_right hle]
        rw [hv]; exact List.mem_cons_of_mem x (ih h2)

theorem pandasMinQ_le {l : List ℚ} {v : ℚ} (h : pandasMinQ l = some v) :
    ∀ y ∈ l, v ≤ y := by
  induction l generalizing v with
  | nil => simp [pandasMinQ] at h
  | cons x xs ih =>
    rw [pandasMinQ] at h
    intro y hy
    cases h2 : pandasMinQ xs with
    | none =>
      rw [h2] at h
      have hv : x = v := by simpa using h
      have hxs : xs = [] := pandasMinQ_eq_none h2
      subst hxs
      have hyx : y = x := by simpa using hy
      rw [hyx, hv]
    | some m =>
      rw [h2] at h
      have hmin : min x m = v := by simpa using h
      rcases List.mem_cons.mp hy with hyx | hy2
      · rw [hyx]; exact hmin ▸ min_le_left x m
      · exact le_trans (hmin ▸ min_le_right x m) (ih h2 y hy2)

theorem pandasMinQ_cons_of_le {x : ℚ} {xs : List ℚ} (h : ∀ y ∈ xs, x ≤ y) :
    pandasMinQ (x :: xs) = some x := by
  rw [pandasMinQ]
  cases h2 : pandasMinQ xs with
  | none => rfl
  | some m => simp [min_eq_left (h m (pandasMinQ_mem h2))]

theorem pandasMaxQ_eq_none {l : List ℚ} (h : pandasMaxQ l = none) : l = [] := by
  cases l with
  | nil => rfl
  | cons x xs => rw [pandasMaxQ] at h; exact absurd h (by simp)

theorem pandasMaxQ_mem {l : List ℚ} {v : ℚ} (h : pandasMaxQ l = some v) : v ∈ l := by
  induction l generalizing v with
  | nil => simp [pandasMaxQ] at h
  | cons x xs ih =>
    rw [pandasMaxQ] at h
    cases h2 : pandasMaxQ xs with
    | none =>
      rw [h2] at h
      have hv : x = v := by simpa using h
      rw [← hv]
      exact List.mem_cons_self x xs
    | some m =>
      rw [h2] at h
      have hmax : max x m = v := by simpa using h
      rcases le_total x m with hle | hle
      · have hv : v = m := by rw [← hmax, max_eq_right hle]
        rw [hv]; exact List.mem_cons_of_mem x (ih h2)
      · have hv : v = x := by rw [← hmax, max_eq_left hle]
        rw [hv]; exact List.mem_cons_self x xs

theorem pandasMaxQ_ge {l : List ℚ} {v : ℚ} (h : pandasMaxQ l = some v) :
    ∀ y ∈ l, y ≤ v := by
  induction l generalizing v with
  | nil => simp [pandasMaxQ] at h
  | cons x xs ih =>
    rw [pandasMaxQ] at h
    intro y hy
    cases h2 : pandasMaxQ xs with
    | none =>
      rw [h2] at h
      have hv : x = v := by simpa using h
      have hxs : xs = [] := pandasMaxQ_eq_none h2
      subst hxs
      have hyx : y = x := by simpa using hy
      rw [hyx, hv]
    | some m =>
      rw [h2] at h
      have hmax : max x m = v := by simpa using h
      rcases List.mem_cons.mp hy with hyx | hy2
      · rw [hyx]; exact hmax ▸ le_max_left x m
      · exact le_trans (ih h2 y hy2) (hmax ▸ le_max_right x m)

theorem pandasMaxQ_eq_of_mem_of_le {l : List ℚ} {m : ℚ} (hm : m ∈ l)
    (hub : ∀ y ∈ l, y ≤ m) : pandasMaxQ l = some m := by
  cases l with
  | nil => simp at hm
  | cons x xs =>
    have hw : ∃ w, pandasMaxQ (x :: xs) = some w := by rw [pandasMaxQ]; exact ⟨_, rfl⟩
    obtain ⟨w, hw⟩ := hw
    have h1 : w ≤ m := hub w (pandasMaxQ_mem hw)
    have h2 : m ≤ w := pandasMaxQ_ge hw m hm
    rw [hw, le_antisymm h1 h2]

theorem markerRows_subset (log : EventLog) (cfg : WindowConfig) :
    ∀ x ∈ markerRows log cfg, x ∈ log.rows := by
  intro x hx
  unfold markerRows at hx
  by_cases h1 : cfg.conditionMarker ≠ ""
  · rw [if_pos h1] at hx
    by_cases h2 : log.hasConditionCol = true
    · rw [if_pos h2] at hx
      exact List.mem_of_mem_filter (List.mem_of_mem_filter hx)
    · rw [if_neg h2] at hx
      exact List.mem_of_mem_filter hx
  · rw [if_neg h1] at hx
    exact List.mem_of_mem_filter hx

theorem remove_invalid_values_nil (metric_type : String) :
    remove_invalid_values metric_type [] = [] := by
  simp [remove_invalid_values]

theorem remove_physiological_outliers_nil (th : Thresholds) :
    remove_physiological_outliers th [] = [] := by
  rcases th with ⟨mn, mx, mc⟩
  cases mn <;> cases mx <;> simp [remove_physiological_outliers]

theorem remove_statistical_outliers_nil (t : ℚ) :
    remove_statistical_outliers t [] = [] := rfl

theorem remove_sudden_changes_nil (mc : ℚ) : remove_sudden_changes mc [] = [] := rfl

theorem interpolate_missing_nil : interpolate_missing [] = [] := rfl

theorem apply_smoothing_nil : apply_smoothing [] = [] := rfl

/-! ## Claim theorems -/

/-- C5: when the MAD of the stage input is nonzero, the statistical-outlier
stage retains exactly the rows whose modified z-score
`0.6745 * (x - median) / MAD` has magnitude below the 3.5 threshold and
rejects the rest (rows whose value is NaN have a NaN z-score and are
rejected as well). -/
theorem remove_statistical_outliers_mad_branch (df : List Row) (m mad : ℚ)
    (hm : stageMedian df = some m) (hmad : stageMAD df = some mad)
    (hmad0 : mad ≠ 0) :
    remove_statistical_outliers (7 / 2) df =
      df.filter (fun r => match r.2 with
        | some v => decide (|6745 / 10000 * (v - m) / mad| < 7 / 2)
        | none => false) := by
  unfold remove_statistical_outliers
  rw [hm, hmad]
  rw [if_neg (by simpa using hmad0)]

/-- Witness for C5 at the example series of the spec
`[70, 72, 71, 73, 150, 72, 71]`: median 72, MAD 1, and exactly the value
150 is removed. -/
theorem remove_statistical_outliers_mad_branch_witness :
    stageMedian exDf72 = some 72 ∧ stageMAD exDf72 = some 1 ∧ (1 : ℚ) ≠ 0 ∧
    remove_statistical_outliers (7 / 2) exDf72 =
      [(0, some 70), (1, some 72), (2, some 71), (3, some 73),
       (5, some 72), (6, some 71)] := by
  have hm : stageMedian exDf72 = some 72 := by
    norm_num [stageMedian, exDf72, pandasMedian, sortQ, insertQ,
      List.filterMap_cons, List.getD]
  have hmad : stageMAD exDf72 = some 1 := by
    norm_num [stageMAD, stageMedian, exDf72, pandasMedian, sortQ, insertQ,
      npMedianOfOpts, List.filterMap_cons, List.getD]
  refine ⟨hm, hmad, by norm_num, ?_⟩
  rw [remove_statistical_outliers_mad_branch exDf72 72 1 hm hmad (by norm_num)]
  norm_num [exDf72, List.filter_cons, decide_eq_true_eq,
    abs_of_nonneg, abs_of_nonpos, abs_lt]

/-- C9: when the MAD of the stage input is zero and the ordinary standard
deviation is zero or undefined (NaN), the statistical-outlier stage
returns its input unchanged — the standard-deviation fallback filter runs
only under the `std > 0` guard, so no division by zero occurs. -/
theorem remove_statistical_outliers_zero_mad_id (t : ℚ) (df : List Row)
    (hmad : stageMAD df = some 0)
    (hvar : stageVar df = none ∨ stageVar df = some 0) :
    remove_statistical_outliers t df = df := by
  unfold remove_statistical_outliers
  rw [hmad, if_pos rfl]
  cases hm : stageMedian df with
  | none => rcases hvar with h | h <;> rw [h]
  | some m =>
    rcases hvar with h | h
    · rw [h]
    · rw [h]
      simp

/-- Witness for C9 at the constant series `[5, 5, 5]`: MAD and variance
are both zero and the stage is the identity. -/
theorem remove_statistical_outliers_zero_mad_id_witness :
    stageMAD constDf = some 0 ∧ stageVar constDf = some 0 ∧
    remove_statistical_outliers (7 / 2) constDf = constDf := by
  have hmad : stageMAD constDf = some 0 := by
    norm_num [stageMAD, stageMedian, constDf, pandasMedian, sortQ, insertQ,
      npMedianOfOpts, List.filterMap_cons, List.getD]
  have hvar : stageVar constDf = some 0 := by
    norm_num [stageVar, constDf, sampleVar, listMean, List.filterMap_cons]
  exact ⟨hmad, hvar,
    remove_statistical_outliers_zero_mad_id (7 / 2) constDf hmad (Or.inr hvar)⟩

/-- C7 counterexample: a five-row series (exactly the window size) is
returned unchanged by the smoothing stage — the source guard is the strict
`len(df) > window` — although the claim says the filter is applied to
every series with at least 5 rows, and applying the median filter here
would change the data. -/
theorem apply_smoothing_five_rows_noop :
    fiveRowSpike.length = 5 ∧
    apply_smoothing fiveRowSpike = fiveRowSpike ∧
    medfiltTransform fiveRowSpike ≠ fiveRowSpike := by
  refine ⟨rfl, by norm_num [apply_smoothing, fiveRowSpike], ?_⟩
  have h : medfiltTransform fiveRowSpike =
      [(0, some 0), (1, some 0), (2, some 0), (3, some 0), (4, some 0)] := by
    norm_num [medfiltTransform, fiveRowSpike, medfiltList, medfiltAt, sortQ,
      insertQ, List.range_succ, List.getD]
  rw [h]
  norm_num [fiveRowSpike]

/-- C7 amended: the smoothing stage is a no-op exactly when the series has
at most 5 rows (the fixed window size); for every longer series the
centered 5-sample median filter is applied to the metric column. -/
theorem apply_smoothing_window_boundary (df : List Row) :
    (df.length ≤ 5 → apply_smoothing df = df) ∧
    (5 < df.length → (∀ r ∈ df, (r.2).isSome = true) →
      apply_smoothing df = medfiltTransform df) := by
  constructor
  · intro h
    unfold apply_smoothing
    rw [if_neg (by omega)]
  · intro h hall
    unfold apply_smoothing
    rw [if_pos h, if_pos (List.all_eq_true.mpr hall)]

/-- Witness for the amended C7: the five-row series is untouched, the
six-row series is median filtered. -/
theorem apply_smoothing_window_boundary_witness :
    apply_smoothing fiveRowSpike = fiveRowSpike ∧
    apply_smoothing sixRowSpike = medfiltTransform sixRowSpike :=
  ⟨(apply_smoothing_window_boundary fiveRowSpike).1 (by norm_num [fiveRowSpike]),
   (apply_smoothing_window_boundary sixRowSpike).2 (by norm_num [sixRowSpike])
     (by decide)⟩

/-- C2: evaluation of the interpolation stage at the gap-boundary series.
A run of exactly 10 interior NaN is fully linearly interpolated, as
claimed.  But a run of exactly 11 interior NaN does NOT lose a row: the
limited linear interpolation fills its first 10 samples and the
unconditional backward fill (limit 5) fills the remaining one, so all 13
rows survive — contradicting the claimed drop (and the module docstring
"Large gaps (>10 samples): Left as NaN, then dropped"). -/
theorem interpolate_missing_gap_boundary :
    interpolate_missing gap10 =
      [(0, some 70), (1, some 71), (2, some 72), (3, some 73), (4, some 74),
       (5, some 75), (6, some 76), (7, some 77), (8, some 78), (9, some 79),
       (10, some 80), (11, some 81)] ∧
    interpolate_missing gap11 =
      [(0, some 70), (1, some 71), (2, some 72), (3, some 73), (4, some 74),
       (5, some 75), (6, some 76), (7, some 77), (8, some 78), (9, some 79),
       (10, some 80), (11, some 82), (12, some 82)] ∧
    (interpolate_missing gap11).length = gap11.length := by
  have h10 : interpolate_missing gap10 =
      [(0, some 70), (1, some 71), (2, some 72), (3, some 73), (4, some 74),
       (5, some 75), (6, some 76), (7, some 77), (8, some 78), (9, some 79),
       (10, some 80), (11, some 81)] := by
    norm_num [interpolate_missing, gap10, interpLinear10, interpAux, noneRunLen,
      firstVal, interpFill, bfill5, ffill5, ffillAux, List.range_succ,
      List.filterMap_cons]
  have h11 : interpolate_missing gap11 =
      [(0, some 70), (1, some 71), (2, some 72), (3, some 73), (4, some 74),
       (5, some 75), (6, some 76), (7, some 77), (8, some 78), (9, some 79),
       (10, some 80), (11, some 82), (12, some 82)] := by
    norm_num [interpolate_missing, gap11, interpLinear10, interpAux, noneRunLen,
      firstVal, interpFill, bfill5, ffill5, ffillAux, List.range_succ,
      List.filterMap_cons]
  refine ⟨h10, h11, ?_⟩
  rw [h11]
  rfl

/-- C8: every stage of the cleaning pipeline maps a zero-row series to a
zero-row series (the embedded stages are total functions, matching the
source, where no stage raises on an empty frame), and therefore `clean`
returns a zero-row series for every metric type and stage configuration. -/
theorem clean_empty_stable (metric_type : String) (stages : Stages)
    (th : Thresholds) (t mc : ℚ) :
    clean metric_type stages [] = [] ∧
    remove_invalid_values metric_type [] = [] ∧
    remove_physiological_outliers th [] = [] ∧
    remove_statistical_outliers t [] = [] ∧
    remove_sudden_changes mc [] = [] ∧
    interpolate_missing [] = [] ∧
    apply_smoothing [] = [] := by
  refine ⟨?_, remove_invalid_values_nil metric_type,
    remove_physiological_outliers_nil th, remove_statistical_outliers_nil t,
    remove_sudden_changes_nil mc, interpolate_missing_nil, apply_smoothing_nil⟩
  unfold clean
  cases hmc : (get_thresholds metric_type).max_change with
  | none =>
    simp [hmc, remove_invalid_values_nil, remove_physiological_outliers_nil,
      remove_statistical_outliers_nil, remove_sudden_changes_nil,
      interpolate_missing_nil, apply_smoothing_nil]
  | some v =>
    simp [hmc, remove_invalid_values_nil, remove_physiological_outliers_nil,
      remove_statistical_outliers_nil, remove_sudden_changes_nil,
      interpolate_missing_nil, apply_smoothing_nil]

/-- C3: `find_timestamp_offset` returns exactly the difference between the
minimum event unix timestamp and the minimum sensor local timestamp, and
adding that offset to the sensor minimum reproduces the event minimum. -/
theorem find_timestamp_offset_min_diff (e s : List (Option ℚ)) (te ts : ℚ)
    (he : pandasMinQ (e.filterMap id) = some te)
    (hs : pandasMinQ (s.filterMap id) = some ts) :
    find_timestamp_offset e s = some (te - ts) ∧ ts + (te - ts) = te := by
  constructor
  · unfold find_timestamp_offset
    rw [he, hs]
  · ring

/-- Witness for C3: an event log starting at 100 and a sensor stream
starting at 40 give offset 60, and 40 + 60 = 100. -/
theorem find_timestamp_offset_min_diff_witness :
    pandasMinQ (([some 100, some 120] : List (Option ℚ)).filterMap id) = some 100 ∧
    pandasMinQ (([some 40, some 50] : List (Option ℚ)).filterMap id) = some 40 ∧
    find_timestamp_offset [some 100, some 120] [some 40, some 50] = some (100 - 40) ∧
    (40 : ℚ) + (100 - 40) = 100 := by
  have he : pandasMinQ (([some 100, some 120] : List (Option ℚ)).filterMap id) =
      some 100 := by decide
  have hs : pandasMinQ (([some 40, some 50] : List (Option ℚ)).filterMap id) =
      some 40 := by decide
  have h := find_timestamp_offset_min_diff [some 100, some 120] [some 40, some 50]
    100 40 he hs
  exact ⟨he, hs, h.1, h.2⟩

/-- C4: for a sorted event log, a full window for each matching occurrence
at `t0` consists of exactly the adjusted sensor rows in the half-open
interval from `t0` to the timestamp of the next valid-marker row after
`t0` (the minimum later valid-marker timestamp), or the end of the log if
none follows; the per-occurrence windows are concatenated in log order. -/
theorem extract_window_data_full_windows (sensors : List SensorRow)
    (log : EventLog) (offset : ℚ) (cfg : WindowConfig)
    (hsort : log.rows.Pairwise (fun a b => a.unix_timestamp ≤ b.unix_timestamp))
    (hfull : cfg.timeWindowType = WindowType.full)
    (hnotall : cfg.eventMarker ≠ "all") :
    extract_window_data sensors log offset cfg =
      (markerRows log cfg).flatMap (fun mrow =>
        (adjustRows offset sensors).filter (fun srow =>
          decide (mrow.unix_timestamp ≤ srow.AdjustedTimestamp)
            && decide (srow.AdjustedTimestamp <
                specNextTime log mrow.unix_timestamp))) := by
  have hend : endTimeFull log = specNextTime log := by
    funext t0
    unfold endTimeFull specNextTime
    cases hf : log.rows.filter (fun r =>
        decide (t0 < r.unix_timestamp) && validMarker r) with
    | nil => simp [pandasMinQ]
    | cons n rest =>
      have hp : (n :: rest).Pairwise
          (fun a b : EventRow => a.unix_timestamp ≤ b.unix_timestamp) := by
        rw [← hf]
        exact hsort.filter _
      have hle : ∀ y ∈ rest.map EventRow.unix_timestamp, n.unix_timestamp ≤ y := by
        intro y hy
        obtain ⟨b, hb, hyb⟩ := List.mem_map.mp hy
        rw [← hyb]
        exact (List.pairwise_cons.mp hp).1 b hb
      rw [List.map_cons, pandasMinQ_cons_of_le hle]
  unfold extract_window_data
  rw [if_neg hnotall, hfull, hend]

/-- Witness for C4 at a two-marker sorted log: the window for marker A at
time 10 collects exactly the sensor rows adjusted into `[10, 20)`. -/
theorem extract_window_data_full_windows_witness :
    (exLog.rows.Pairwise (fun a b => a.unix_timestamp ≤ b.unix_timestamp)) ∧
    extract_window_data exSensors exLog 2 exCfg =
      (markerRows exLog exCfg).flatMap (fun mrow =>
        (adjustRows 2 exSensors).filter (fun srow =>
          decide (mrow.unix_timestamp ≤ srow.AdjustedTimestamp)
            && decide (srow.AdjustedTimestamp <
                specNextTime exLog mrow.unix_timestamp))) ∧
    extract_window_data exSensors exLog 2 exCfg = [⟨9, 1, 11⟩, ⟨12, 2, 14⟩] := by
  have hsort : exLog.rows.Pairwise
      (fun a b => a.unix_timestamp ≤ b.unix_timestamp) := by decide
  refine ⟨hsort,
    extract_window_data_full_windows exSensors exLog 2 exCfg hsort rfl (by decide),
    ?_⟩
  norm_num [extract_window_data, exSensors, exLog, exCfg, adjustRows, markerRows,
    endTimeFull, validMarker, endOfLog, pandasMaxQ, List.filter_cons,
    List.flatMap_cons, List.flatMap_nil, decide_eq_true_eq]
  simp
  decide

/-- C10: when the (single) matching occurrence carries the maximum
timestamp of the event log, the fallback end bound of its full window is
its own timestamp, the half-open window is empty, and the extraction
returns the empty result. -/
theorem extract_window_data_last_marker_empty (sensors : List SensorRow)
    (log : EventLog) (offset : ℚ) (cfg : WindowConfig) (r : EventRow)
    (hfull : cfg.timeWindowType = WindowType.full)
    (hnotall : cfg.eventMarker ≠ "all")
    (hmr : markerRows log cfg = [r])
    (hmax : ∀ e ∈ log.rows, e.unix_timestamp ≤ r.unix_timestamp) :
    endTimeFull log r.unix_timestamp = r.unix_timestamp ∧
    extract_window_data sensors log offset cfg = [] := by
  have hrmem : r ∈ log.rows := by
    apply markerRows_subset log cfg
    rw [hmr]
    exact List.mem_cons_self r []
  have hfilter : log.rows.filter (fun x =>
      decide (r.unix_timestamp < x.unix_timestamp) && validMarker x) = [] := by
    rw [List.filter_eq_nil]
    intro a ha
    simp only [Bool.and_eq_true, decide_eq_true_eq, not_and]
    intro hlt
    exact absurd hlt (not_lt.mpr (hmax a ha))
  have hend : endTimeFull log r.unix_timestamp = r.unix_timestamp := by
    unfold endTimeFull
    rw [hfilter]
    unfold endOfLog
    have hub : ∀ y ∈ log.rows.map EventRow.unix_timestamp, y ≤ r.unix_timestamp := by
      intro y hy
      obtain ⟨b, hb, hyb⟩ := List.mem_map.mp hy
      rw [← hyb]
      exact hmax b hb
    rw [pandasMaxQ_eq_of_mem_of_le
      (List.mem_map_of_mem EventRow.unix_timestamp hrmem) hub]
  refine ⟨hend, ?_⟩
  unfold extract_window_data
  rw [if_neg hnotall, hmr]
  simp only [hfull, List.flatMap_cons, List.flatMap_nil, List.append_nil]
  rw [hend, List.filter_eq_nil]
  intro a ha
  simp only [Bool.and_eq_true, decide_eq_true_eq, not_and]
  intro h1
  exact fun h2 => absurd h2 (not_lt.mpr h1)

/-- Witness for C10: a one-row log whose only (matching) marker is at the
log maximum yields the degenerate window `[10, 10)` and no output rows. -/
theorem extract_window_data_last_marker_empty_witness :
    markerRows lastLog exCfg = [⟨10, some "A", none⟩] ∧
    endTimeFull lastLog 10 = 10 ∧
    extract_window_data lastSensors lastLog 0 exCfg = [] := by
  have hmr : markerRows lastLog exCfg = [⟨10, some "A", none⟩] := by decide
  have h := extract_window_data_last_marker_empty lastSensors lastLog 0 exCfg
    ⟨10, some "A", none⟩ rfl (by decide) hmr (by decide)
  exact ⟨hmr, h.1, h.2⟩

/-- C1: evaluation of `prepare_event_markers_timestamps` on an OLD-format
table whose numeric `timestamp` column is `[100.0, -5.0, NaN]`: the table
is accepted and returned with the column copied verbatim, so the output
retains a null `unix_timestamp` and the non-positive value `-5` — no
filtering happens in the numeric legacy branch. -/
theorem prepare_event_markers_numeric_keeps_invalid :
    prepare_event_markers_timestamps numericLegacyTable =
      Except.ok [some 100, some (-5), none] ∧
    ¬ (0 : ℚ) < -5 :=
  ⟨rfl, by norm_num⟩

/-- C6: evaluation of `calculate_statistics` on a one-sample window with
method `moving_average`: the standard deviation is NaN and is coerced to 0
in the `std` field, but `smoothness` is computed from the *uncoerced*
standard deviation divided by the mean 5, so the returned record carries a
NaN field. -/
theorem calculate_statistics_one_sample_smoothness_nan :
    calculate_statistics [some 5] AMethod.moving_average none =
      ⟨5, 0, 5, 5, 1, none, some SmoothVal.nanSm⟩ := by
  norm_num [calculate_statistics, listMean, sampleVar, pandasMinQ, pandasMaxQ,
    List.filterMap_cons]

end AnalysisPlatform
